import Mathlib

/-!
# Verification of the token-refresh coordinator of `project_one`

This file gives a shallow embedding of the front-end HTTP client of the
repository (`src/frontend/src/services/api.ts`), of the auth context that
listens for the global logout event
(`src/frontend/src/context/AuthContext.tsx`), and of the login form's
error mapping (the `Login` component), and proves the specification's
claims about them.

The client runs on a single-threaded cooperative event loop, so the
response interceptor's error handler runs to completion between any two
observed 401 responses.  We therefore model the coordinator as a state
machine: `interceptError` is one activation of the error handler on one
failed response, and `settleRefresh` is the continuation that runs when
the single in-flight `POST /auth/refresh` settles (the `try`/`catch`/
`finally` of lines 60-76 together with the `.then` continuations of the
queued callers).  Externally visible effects (requests issued, promises
resolved or rejected, events dispatched) are recorded in a trace of `Op`s,
in the order the event loop performs them: a promise resolved inside
`processQueue` schedules its `.then` continuation as a microtask, so the
leader's synchronous retry `return api(originalRequest)` is issued first
and the queued retries follow in FIFO order.
-/

namespace ProjectOne

/-- An axios request config: its `url`, the `_retry` marker the
interceptor sets before refreshing (absent, i.e. `false`, on a fresh
request), and its `Authorization` header if any. -/
structure Request where
  url : String
  retry : Bool
  auth : Option String
deriving DecidableEq, Repr

/-- An `AxiosError` as seen by the response interceptor: the HTTP status
of the response (`none` when there was no response) and the originating
request config (`error.config`). -/
structure RespError where
  status : Option Nat
  config : Request
deriving DecidableEq, Repr

/-- JavaScript's `String.prototype.includes`:
`url.includes(pat)` is true iff `pat` occurs as a contiguous substring. -/
def urlIncludes (url pat : String) : Bool :=
  decide (List.IsInfix pat.toList url.toList)

/-- The mutable module state of `api.ts` together with the axios default
headers: `defaultsAuth` is `api.defaults.headers.common['Authorization']`,
`isRefreshing` and `failedQueue` are the module-level variables of lines
16-20, and `pending` records the leader 401 whose handler is suspended at
`await api.post('/auth/refresh')` (its caller id and its marked config,
held on that handler's stack). The queue stores, for each suspended
caller, its id and the `originalRequest` captured by its closure. -/
structure ApiState where
  defaultsAuth : Option String
  isRefreshing : Bool
  failedQueue : List (Nat × Request)
  pending : Option (Nat × Request)
deriving DecidableEq, Repr

/-- `setAuthToken` (api.ts lines 8-14): `if (token)` tests JavaScript
truthiness, and of `string | null` both `null` and the empty string are
falsy, so both delete the default `Authorization` header; a non-empty
token sets it to `Bearer <token>`. -/
def setAuthToken (st : ApiState) (token : Option String) : ApiState :=
  match token with
  | some t =>
      if t.isEmpty then { st with defaultsAuth := none }
      else { st with defaultsAuth := some ("Bearer " ++ t) }
  | none => { st with defaultsAuth := none }

/-- The externally visible effects of the client, in event-loop order. -/
inductive Op where
  /-- `api.post('/auth/refresh')` is issued. -/
  | refreshPost
  /-- `api(originalRequest)` is issued for caller `id` with config `req`. -/
  | retryReq (id : Nat) (req : Request)
  /-- the queued promise of caller `id` is resolved with `token`. -/
  | resolveCaller (id : Nat) (token : String)
  /-- the queued promise of caller `id` is rejected with the refresh error. -/
  | rejectCaller (id : Nat) (err : String)
  /-- the leader handler returns `Promise.reject(refreshError)`. -/
  | rejectLeader (id : Nat) (err : String)
  /-- the handler returns `Promise.reject(error)`, the original error. -/
  | rejectOriginal (id : Nat) (e : RespError)
  /-- `window.dispatchEvent(new Event('logout'))`. -/
  | dispatchLogout
  /-- `api.post('/auth/logout')` from the auth context. -/
  | postLogout
deriving DecidableEq, Repr

/-- How one activation of the error handler disposed of its error. -/
inductive Decision where
  | passThrough
  | enqueued
  | startedRefresh
deriving DecidableEq, Repr

/-- The guard of api.ts lines 42-47: status is 401, the url contains
neither `/auth/login` nor `/auth/refresh`, and `_retry` is not set. -/
def refreshEligible (e : RespError) : Bool :=
  e.status == some 401
    && !(urlIncludes e.config.url "/auth/login")
    && !(urlIncludes e.config.url "/auth/refresh")
    && !e.config.retry

/-- `processQueue` (api.ts lines 22-31): reject every queued promise with
the error when one is given, otherwise resolve each with the token; then
empty the queue. Returns the new state and the resolution trace in queue
(FIFO) order. -/
def processQueue (st : ApiState) (error : Option String) (token : Option String) :
    ApiState × List Op :=
  ({ st with failedQueue := [] },
   st.failedQueue.map fun p =>
     match error with
     | some e => Op.rejectCaller p.1 e
     | none => Op.resolveCaller p.1 (token.getD ""))

/-- One activation of the response interceptor's error handler
(api.ts lines 37-80) on the error of caller `id`, up to (and not past)
the `await` of the refresh call.  If the guard fails, the original error
is rejected unchanged.  If a refresh is already in flight, the caller is
pushed onto `failedQueue` and suspends, issuing nothing.  Otherwise the
request is marked `_retry`, `isRefreshing` is set, and the single
`POST /auth/refresh` is issued, recording the leader in `pending`. -/
def interceptError (st : ApiState) (id : Nat) (e : RespError) :
    ApiState × Decision × List Op :=
  if refreshEligible e then
    if st.isRefreshing then
      ({ st with failedQueue := st.failedQueue ++ [(id, e.config)] },
       Decision.enqueued, [])
    else
      ({ st with isRefreshing := true,
                 pending := some (id, { e.config with retry := true }) },
       Decision.startedRefresh, [Op.refreshPost])
  else
    (st, Decision.passThrough, [Op.rejectOriginal id e])

/-- The outcome of the in-flight `POST /auth/refresh`. -/
inductive RefreshOutcome where
  | success (accessToken : String)
  | failure (err : String)
deriving DecidableEq, Repr

/-- Resumption of the leader's handler when the refresh settles
(api.ts lines 60-76), including the queued callers' `.then`
continuations (lines 51-54).  On success: `setAuthToken` installs the new
default header, the leader's config gets the `Bearer` header,
`processQueue` resolves every queued promise with the token, the leader's
retry is issued synchronously, and then each queued continuation sets the
header on its captured config and retries, in FIFO order.  On failure:
`processQueue` rejects every queued promise with the refresh error, the
`logout` event is dispatched, and the leader's promise is rejected with
the refresh error.  The `finally` clears `isRefreshing` either way. -/
def settleRefresh (st : ApiState) (outcome : RefreshOutcome) : ApiState × List Op :=
  match st.pending with
  | none => (st, [])
  | some (lid, lreq) =>
    match outcome with
    | RefreshOutcome.success tok =>
        let st1 := setAuthToken st (some tok)
        let lreq1 := { lreq with auth := some ("Bearer " ++ tok) }
        let queued := st1.failedQueue
        let step2 := processQueue st1 none (some tok)
        let retryOps := queued.map fun p =>
          Op.retryReq p.1 { p.2 with auth := some ("Bearer " ++ tok) }
        ({ step2.1 with isRefreshing := false, pending := none },
         step2.2 ++ [Op.retryReq lid lreq1] ++ retryOps)
    | RefreshOutcome.failure e =>
        let step2 := processQueue st (some e) none
        ({ step2.1 with isRefreshing := false, pending := none },
         step2.2 ++ [Op.dispatchLogout, Op.rejectLeader lid e])

/-- A 401 response error for request `r`. -/
def err401 (r : Request) : RespError :=
  { status := some 401, config := r }

/-- Eligibility of a fresh request's 401 for the refresh path. -/
def reqEligible (r : Request) : Bool :=
  refreshEligible (err401 r)

/-- Observe a list of identified response errors one after another
(the event loop delivers them sequentially), collecting the trace. -/
def observeBatch (st : ApiState) (errs : List (Nat × RespError)) :
    ApiState × List Op :=
  match errs with
  | [] => (st, [])
  | (id, e) :: rest =>
      let step := interceptError st id e
      let next := observeBatch step.1 rest
      (next.1, step.2.2 ++ next.2)

/-- The 401 errors of a batch of requests, labelled by submission order
starting at `n`. -/
def labelFrom (n : Nat) (reqs : List Request) : List (Nat × RespError) :=
  match reqs with
  | [] => []
  | r :: rest => (n, err401 r) :: labelFrom (n + 1) rest

/-- The requests of a batch labelled by submission order starting at `n`. -/
def labelReqs (n : Nat) (reqs : List Request) : List (Nat × Request) :=
  match reqs with
  | [] => []
  | r :: rest => (n, r) :: labelReqs (n + 1) rest

/-- The batch scenario of the specification: the N requests, identified
by submission order 0,1,…, each receive a 401; the interceptor observes
them in that order, then the single refresh settles with `outcome`. -/
def runBatch (st : ApiState) (reqs : List Request) (outcome : RefreshOutcome) :
    ApiState × List Op :=
  let step1 := observeBatch st (labelFrom 0 reqs)
  let step2 := settleRefresh step1.1 outcome
  (step2.1, step1.2 ++ step2.2)

/-- Whether an op is the issuing of `POST /auth/refresh`. -/
def Op.isRefreshPost : Op → Bool
  | Op.refreshPost => true
  | _ => false

/-- Number of `POST /auth/refresh` requests issued in a trace. -/
def countRefreshPosts (ops : List Op) : Nat :=
  ops.countP fun o => o.isRefreshPost

/-- The retried requests of a trace, in issue order: caller id and the
config the retry was issued with. -/
def retriesOf (ops : List Op) : List (Nat × Request) :=
  ops.filterMap fun o =>
    match o with
    | Op.retryReq i r => some (i, r)
    | _ => none

/-- The queued-promise resolutions of a trace, in order. -/
def resolvesOf (ops : List Op) : List (Nat × String) :=
  ops.filterMap fun o =>
    match o with
    | Op.resolveCaller i t => some (i, t)
    | _ => none

/-- The queued-promise rejections of a trace, in order. -/
def rejectsOf (ops : List Op) : List (Nat × String) :=
  ops.filterMap fun o =>
    match o with
    | Op.rejectCaller i e => some (i, e)
    | _ => none

/-- All rejections carrying the refresh error: the queued callers'
rejections and the leader's own rejected promise. -/
def rejectionsOf (ops : List Op) : List (Nat × String) :=
  ops.filterMap fun o =>
    match o with
    | Op.rejectCaller i e => some (i, e)
    | Op.rejectLeader i e => some (i, e)
    | _ => none

/-- The `Authorization` header a request actually goes out with under
axios semantics: a header set on the request config wins, otherwise the
default header `api.defaults.headers.common['Authorization']` applies. -/
def effectiveAuth (st : ApiState) (reqAuth : Option String) : Option String :=
  match reqAuth with
  | some a => some a
  | none => st.defaultsAuth

/-! ## The auth context (`AuthContext.tsx`) -/

/-- The user profile object exposed by the auth context. -/
structure UserProfile where
  id : String
  username : String
  email : String
  fullname : Option String
  is_active : Bool
  is_superuser : Bool
  created_at : String
  is_2fa_enabled : Bool
deriving DecidableEq, Repr

/-- The auth context's state: the current user and the access token held
in React state. -/
structure AuthState where
  user : Option UserProfile
  accessToken : Option String
deriving DecidableEq, Repr

/-- `logout` (AuthContext.tsx lines 158-167): clear the user and the
stored access token, call `setAuthToken(null)` (deleting the default
`Authorization` header), then post `/auth/logout`. -/
def logout (_a : AuthState) (st : ApiState) : AuthState × ApiState × List Op :=
  let a1 : AuthState := { user := none, accessToken := none }
  let st1 := setAuthToken st none
  (a1, st1, [Op.postLogout])

/-- `handleLogoutEvent` (AuthContext.tsx lines 170-172), the listener
registered on the window for the `logout` event (line 173): it just
calls `logout`. -/
def handleLogoutEvent (a : AuthState) (st : ApiState) : AuthState × ApiState × List Op :=
  logout a st

/-! ## The login form's error mapping (`Login` component) -/

/-- The error caught by `onCredentialsSubmit`: an `AxiosError` carrying
the response status (`none` when there was no response), or any other
thrown value. -/
inductive SubmitError where
  | axiosError (status : Option Nat)
  | other
deriving DecidableEq, Repr

/-- The catch block of `onCredentialsSubmit` (Login component, lines
103-111): start from "Login failed." and refine by status when the error
is an `AxiosError`; the result is passed to
`loginForm.setError("root", ...)` and shown on the form. -/
def loginErrorMessage (err : SubmitError) : String :=
  let errorMessage := "Login failed."
  match err with
  | SubmitError.axiosError status =>
      if status == some 429 then "Too many login attempts."
      else if status == some 401 then "Incorrect username or password."
      else if status == some 403 then "Account is not active. Please verify your email."
      else errorMessage
  | SubmitError.other => errorMessage

/-! ## Concrete sample data (used by witnesses) -/

/-- A fresh eligible request. -/
def reqUsers : Request := { url := "/users/me", retry := false, auth := none }

/-- Another fresh eligible request. -/
def reqSessions : Request := { url := "/sessions", retry := false, auth := none }

/-- The client's idle state. -/
def idleState : ApiState :=
  { defaultsAuth := none, isRefreshing := false, failedQueue := [], pending := none }

/-- A state with a refresh in flight and one queued caller. -/
def busyState : ApiState :=
  { defaultsAuth := none, isRefreshing := true,
    failedQueue := [(1, reqSessions)],
    pending := some (0, { reqUsers with retry := true }) }

/-- A sample signed-in auth context state. -/
def authSample : AuthState :=
  { user := some { id := "u1", username := "alice", email := "a@x.io",
                   fullname := none, is_active := true, is_superuser := false,
                   created_at := "2025-01-01", is_2fa_enabled := false },
    accessToken := some "tok0" }

/-- A first refresh cycle: two requests 401 together and the refresh
succeeds with token `tok1`. -/
def cycleOne : ApiState × List Op :=
  runBatch idleState [reqUsers, reqSessions] (RefreshOutcome.success "tok1")

/-- The config the queued caller's retry goes out with after cycle one:
the code set only its `Authorization` header, not `_retry`. -/
def reqSessionsRetry : Request :=
  { url := "/sessions", retry := false, auth := some "Bearer tok1" }

/-- A second cycle: the replayed `/sessions` request receives another
401 in the post-settle state and the second refresh succeeds. -/
def cycleTwo : ApiState × List Op :=
  runBatch cycleOne.1 [reqSessionsRetry] (RefreshOutcome.success "tok2")

/-! ## Supporting lemmas -/

theorem labelFrom_config_map (n : Nat) (reqs : List Request) :
    (labelFrom n reqs).map (fun p => (p.1, p.2.config)) = labelReqs n reqs := by
  induction reqs generalizing n with
  | nil => simp [labelFrom, labelReqs]
  | cons r rest ih => simp [labelFrom, labelReqs, err401, ih]

theorem labelFrom_eligible (n : Nat) (reqs : List Request)
    (h : reqs.all reqEligible = true) :
    ∀ p ∈ labelFrom n reqs, refreshEligible p.2 = true := by
  induction reqs generalizing n with
  | nil => simp [labelFrom]
  | cons r rest ih =>
      simp only [List.all_cons, Bool.and_eq_true] at h
      intro p hp
      simp only [labelFrom, List.mem_cons] at hp
      rcases hp with hp | hp
      · subst hp; exact h.1
      · exact ih (n + 1) h.2 p hp

theorem labelReqs_map_fst (n : Nat) (reqs : List Request) :
    (labelReqs n reqs).map Prod.fst = List.range' n reqs.length := by
  induction reqs generalizing n with
  | nil => simp [labelReqs]
  | cons r rest ih => simp [labelReqs, List.range'_succ, ih]

theorem setAuthToken_failedQueue (st : ApiState) (token : Option String) :
    (setAuthToken st token).failedQueue = st.failedQueue := by
  cases token with
  | none => rfl
  | some t =>
      simp only [setAuthToken]
      split <;> rfl

theorem setAuthToken_defaultsAuth_ite (st : ApiState) (t : String) :
    (setAuthToken st (some t)).defaultsAuth =
      if t.isEmpty then none else some ("Bearer " ++ t) := by
  simp only [setAuthToken]
  split <;> rfl

/-- While a refresh is in flight, a batch of eligible 401s is appended to
the queue in observation order and nothing is issued. -/
theorem observeBatch_busy (errs : List (Nat × RespError)) (st : ApiState)
    (hb : st.isRefreshing = true)
    (he : ∀ p ∈ errs, refreshEligible p.2 = true) :
    observeBatch st errs =
      ({ st with failedQueue :=
          st.failedQueue ++ errs.map fun p => (p.1, p.2.config) }, []) := by
  induction errs generalizing st with
  | nil => simp [observeBatch]
  | cons p rest ih =>
      obtain ⟨id, e⟩ := p
      have hel : refreshEligible e = true := he (id, e) (by simp)
      have hrest : ∀ q ∈ rest, refreshEligible q.2 = true :=
        fun q hq => he q (List.mem_cons_of_mem _ hq)
      simp only [observeBatch, interceptError, hel, hb, if_true]
      rw [ih _ (by simp [hb]) hrest]
      simp

/-- Explicit run of the batch scenario when the refresh succeeds. -/
theorem runBatch_success (st : ApiState) (r : Request) (rest : List Request)
    (tok : String)
    (hIdle : st.isRefreshing = false) (hq : st.failedQueue = [])
    (hr : reqEligible r = true) (hrest : rest.all reqEligible = true) :
    runBatch st (r :: rest) (RefreshOutcome.success tok) =
      ({ defaultsAuth := if tok.isEmpty then none else some ("Bearer " ++ tok),
         isRefreshing := false, failedQueue := [], pending := none },
       Op.refreshPost ::
         (((labelReqs 1 rest).map fun p => Op.resolveCaller p.1 tok) ++
          Op.retryReq 0 { r with retry := true, auth := some ("Bearer " ++ tok) } ::
          ((labelReqs 1 rest).map fun p =>
            Op.retryReq p.1 { p.2 with auth := some ("Bearer " ++ tok) }))) := by
  have hr0 : refreshEligible (err401 r) = true := hr
  simp only [runBatch, labelFrom, observeBatch, interceptError, hr0, hIdle,
    if_true, if_false, Bool.false_eq_true]
  rw [observeBatch_busy _ _ (by simp) (labelFrom_eligible 1 rest hrest)]
  simp [settleRefresh, processQueue, err401, hq, labelFrom_config_map,
    setAuthToken_failedQueue, setAuthToken_defaultsAuth_ite]

/-- Explicit run of the batch scenario when the refresh fails. -/
theorem runBatch_failure (st : ApiState) (r : Request) (rest : List Request)
    (e : String)
    (hIdle : st.isRefreshing = false) (hq : st.failedQueue = [])
    (hr : reqEligible r = true) (hrest : rest.all reqEligible = true) :
    runBatch st (r :: rest) (RefreshOutcome.failure e) =
      ({ defaultsAuth := st.defaultsAuth, isRefreshing := false,
         failedQueue := [], pending := none },
       Op.refreshPost ::
         (((labelReqs 1 rest).map fun p => Op.rejectCaller p.1 e) ++
          [Op.dispatchLogout, Op.rejectLeader 0 e])) := by
  have hr0 : refreshEligible (err401 r) = true := hr
  simp only [runBatch, labelFrom, observeBatch, interceptError, hr0, hIdle,
    if_true, if_false, Bool.false_eq_true]
  rw [observeBatch_busy _ _ (by simp) (labelFrom_eligible 1 rest hrest)]
  simp [settleRefresh, processQueue, err401, hq, labelFrom_config_map]

theorem range_succ_eq_cons (n : Nat) :
    List.range (n + 1) = 0 :: List.range' 1 n := by
  rw [List.range_eq_range', List.range'_succ]

theorem filterMap_some_fn {α β : Type} (f : α → β) (l : List α) :
    l.filterMap (fun a => some (f a)) = l.map f := by
  induction l with
  | nil => rfl
  | cons a t ih => simp [List.filterMap_cons, ih]

theorem filterMap_none_fn {α β : Type} (l : List α) :
    l.filterMap (fun _ => (none : Option β)) = [] := by
  induction l with
  | nil => rfl
  | cons a t ih => simp [List.filterMap_cons, ih]

/-! ## Claims -/

/-- C1: for every batch of N simultaneous requests (N ≥ 1) that each
receive a 401 while no refresh is in flight, the interceptor issues
exactly one `POST /auth/refresh`; and every 401 observed while
`isRefreshing` is set is enqueued on `failedQueue` and issues no
additional refresh request. -/
theorem single_flight_refresh (st stB : ApiState) (r : Request)
    (rest : List Request) (outcome : RefreshOutcome) (id : Nat) (e : RespError)
    (hIdle : st.isRefreshing = false) (hq : st.failedQueue = [])
    (hr : reqEligible r = true) (hrest : rest.all reqEligible = true)
    (hB : stB.isRefreshing = true) (he : refreshEligible e = true) :
    countRefreshPosts (runBatch st (r :: rest) outcome).2 = 1 ∧
    interceptError stB id e =
      ({ stB with failedQueue := stB.failedQueue ++ [(id, e.config)] },
       Decision.enqueued, []) := by
  constructor
  · cases outcome with
    | success tok =>
        rw [runBatch_success st r rest tok hIdle hq hr hrest]
        simp [countRefreshPosts, Op.isRefreshPost, List.countP_cons,
          List.countP_append, List.countP_map, Function.comp_def]
    | failure err =>
        rw [runBatch_failure st r rest err hIdle hq hr hrest]
        simp [countRefreshPosts, Op.isRefreshPost, List.countP_cons,
          List.countP_append, List.countP_map, Function.comp_def]
  · simp [interceptError, he, hB]

/-- C2: when the refresh succeeds, every one of the N original requests
is retried with its `Authorization` header set to `Bearer <tok>` for the
one new access token; when the refresh fails, all N are rejected with
the refresh error (every queued caller, and the leader's promise too). -/
theorem all_or_nothing_outcome (st : ApiState) (r : Request)
    (rest : List Request) (tok err : String)
    (hIdle : st.isRefreshing = false) (hq : st.failedQueue = [])
    (hr : reqEligible r = true) (hrest : rest.all reqEligible = true) :
    retriesOf (runBatch st (r :: rest) (RefreshOutcome.success tok)).2 =
      (0, { r with retry := true, auth := some ("Bearer " ++ tok) }) ::
        (labelReqs 1 rest).map
          (fun p => (p.1, { p.2 with auth := some ("Bearer " ++ tok) })) ∧
    (retriesOf (runBatch st (r :: rest) (RefreshOutcome.success tok)).2).map
        Prod.fst = List.range (r :: rest).length ∧
    rejectionsOf (runBatch st (r :: rest) (RefreshOutcome.failure err)).2 =
      ((labelReqs 1 rest).map fun p => (p.1, err)) ++ [(0, err)] := by
  refine ⟨?_, ?_, ?_⟩
  · rw [runBatch_success st r rest tok hIdle hq hr hrest]
    simp [retriesOf, List.filterMap_cons, List.filterMap_append,
      List.filterMap_map, Function.comp_def, filterMap_some_fn, filterMap_none_fn]
  · rw [runBatch_success st r rest tok hIdle hq hr hrest]
    simp [retriesOf, List.filterMap_cons, List.filterMap_append,
      List.filterMap_map, Function.comp_def, filterMap_some_fn, filterMap_none_fn,
      List.length_cons, range_succ_eq_cons, labelReqs_map_fst]
  · rw [runBatch_failure st r rest err hIdle hq hr hrest]
    simp [rejectionsOf, List.filterMap_cons, List.filterMap_append,
      List.filterMap_map, Function.comp_def, filterMap_some_fn, filterMap_none_fn]

/-- C3: once the refresh settles, the queued callers are released in
enqueue order (resolved with the new token on success, rejected with the
refresh error on failure), and the N original requests are retried in
their original submission order 0, 1, …, N-1. -/
theorem release_order (st : ApiState) (r : Request)
    (rest : List Request) (tok err : String)
    (hIdle : st.isRefreshing = false) (hq : st.failedQueue = [])
    (hr : reqEligible r = true) (hrest : rest.all reqEligible = true) :
    resolvesOf (runBatch st (r :: rest) (RefreshOutcome.success tok)).2 =
      (labelReqs 1 rest).map (fun p => (p.1, tok)) ∧
    (retriesOf (runBatch st (r :: rest) (RefreshOutcome.success tok)).2).map
        Prod.fst = List.range (r :: rest).length ∧
    rejectsOf (runBatch st (r :: rest) (RefreshOutcome.failure err)).2 =
      (labelReqs 1 rest).map (fun p => (p.1, err)) ∧
    (labelReqs 1 rest).map Prod.fst = List.range' 1 rest.length := by
  refine ⟨?_, ?_, ?_, labelReqs_map_fst 1 rest⟩
  · rw [runBatch_success st r rest tok hIdle hq hr hrest]
    simp [resolvesOf, List.filterMap_cons, List.filterMap_append,
      List.filterMap_map, Function.comp_def, filterMap_some_fn, filterMap_none_fn]
  · rw [runBatch_success st r rest tok hIdle hq hr hrest]
    simp [retriesOf, List.filterMap_cons, List.filterMap_append,
      List.filterMap_map, Function.comp_def, filterMap_some_fn, filterMap_none_fn,
      List.length_cons, range_succ_eq_cons, labelReqs_map_fst]
  · rw [runBatch_failure st r rest err hIdle hq hr hrest]
    simp [rejectsOf, List.filterMap_cons, List.filterMap_append,
      List.filterMap_map, Function.comp_def, filterMap_some_fn, filterMap_none_fn]

/-- C4: whenever the refresh request itself fails, the interceptor
dispatches a global `logout` event, and the auth context's registered
listener `handleLogoutEvent` performs `logout`, clearing the user, the
stored access token, and the default `Authorization` header. -/
theorem refresh_failure_triggers_logout (stP : ApiState) (lid : Nat)
    (lreq : Request) (err : String) (a : AuthState) (apiSt : ApiState)
    (hp : stP.pending = some (lid, lreq)) :
    Op.dispatchLogout ∈ (settleRefresh stP (RefreshOutcome.failure err)).2 ∧
    (handleLogoutEvent a apiSt).1 =
      { user := none, accessToken := none } ∧
    (handleLogoutEvent a apiSt).2.1.defaultsAuth = none := by
  refine ⟨?_, rfl, rfl⟩
  simp [settleRefresh, hp, processQueue]

/-- C5: on a 401 of an eligible request with the busy flag clear, the
interceptor marks the request retried, sets the busy flag and issues one
refresh call; when the refresh settles, every queued caller is resolved
with the new token (on success) or rejected with the refresh error (on
failure) and the busy flag is cleared; on a 401 with the busy flag set,
the caller is enqueued and issues no request. -/
theorem coordinator_step (st stB stP : ApiState) (id idB : Nat)
    (e eB : RespError) (tok err : String) (lid : Nat) (lreq : Request)
    (hIdle : st.isRefreshing = false) (he : refreshEligible e = true)
    (hB : stB.isRefreshing = true) (heB : refreshEligible eB = true)
    (hp : stP.pending = some (lid, lreq)) :
    interceptError st id e =
      ({ st with isRefreshing := true,
                 pending := some (id, { e.config with retry := true }) },
       Decision.startedRefresh, [Op.refreshPost]) ∧
    resolvesOf (settleRefresh stP (RefreshOutcome.success tok)).2 =
      stP.failedQueue.map (fun p => (p.1, tok)) ∧
    (settleRefresh stP (RefreshOutcome.success tok)).1.isRefreshing = false ∧
    rejectsOf (settleRefresh stP (RefreshOutcome.failure err)).2 =
      stP.failedQueue.map (fun p => (p.1, err)) ∧
    (settleRefresh stP (RefreshOutcome.failure err)).1.isRefreshing = false ∧
    interceptError stB idB eB =
      ({ stB with failedQueue := stB.failedQueue ++ [(idB, eB.config)] },
       Decision.enqueued, []) := by
  refine ⟨?_, ?_, ?_, ?_, ?_, ?_⟩
  · simp [interceptError, he, hIdle]
  · simp [settleRefresh, hp, setAuthToken_failedQueue, processQueue, resolvesOf,
      List.filterMap_cons, List.filterMap_append, List.filterMap_map,
      Function.comp_def, filterMap_some_fn, filterMap_none_fn]
  · simp [settleRefresh, hp, setAuthToken_failedQueue, processQueue]
  · simp [settleRefresh, hp, processQueue, rejectsOf,
      List.filterMap_cons, List.filterMap_append, List.filterMap_map,
      Function.comp_def, filterMap_some_fn, filterMap_none_fn]
  · simp [settleRefresh, hp, processQueue]
  · simp [interceptError, heB, hB]

/-- C6: a failed login submission's message is decided by the response
status: 429 yields "Too many login attempts.", 401 yields "Incorrect
username or password.", 403 yields "Account is not active. Please verify
your email.", and any other failure (another status, a response-less
AxiosError, or a non-Axios error) yields "Login failed.". -/
theorem login_error_status_messages (s : Option Nat)
    (h429 : s ≠ some 429) (h401 : s ≠ some 401) (h403 : s ≠ some 403) :
    loginErrorMessage (SubmitError.axiosError (some 429)) =
      "Too many login attempts." ∧
    loginErrorMessage (SubmitError.axiosError (some 401)) =
      "Incorrect username or password." ∧
    loginErrorMessage (SubmitError.axiosError (some 403)) =
      "Account is not active. Please verify your email." ∧
    loginErrorMessage (SubmitError.axiosError s) = "Login failed." ∧
    loginErrorMessage SubmitError.other = "Login failed." := by
  refine ⟨rfl, rfl, rfl, ?_, rfl⟩
  simp [loginErrorMessage, h429, h401, h403]

/-- C7 (amended): the interceptor rejects the original error unchanged,
issuing no refresh, whenever the status is not 401, or the URL targets
`/auth/login` or `/auth/refresh`, or the request carries the `_retry`
marker; a request carrying `_retry` is never eligible, and the request
that triggers a refresh is stored marked with `_retry` before its retry
(so the triggering request is never refresh-retried twice). -/
theorem refresh_path_exclusions (st stI : ApiState) (id idI : Nat)
    (e eI : RespError) (q : Request) (s : Option Nat)
    (h : e.status ≠ some 401 ∨ urlIncludes e.config.url "/auth/login" = true
       ∨ urlIncludes e.config.url "/auth/refresh" = true ∨ e.config.retry = true)
    (hq : q.retry = true)
    (hI : stI.isRefreshing = false) (heI : refreshEligible eI = true) :
    interceptError st id e = (st, Decision.passThrough, [Op.rejectOriginal id e]) ∧
    refreshEligible { status := s, config := q } = false ∧
    (interceptError stI idI eI).1.pending =
      some (idI, { eI.config with retry := true }) := by
  have hne : refreshEligible e = false := by
    rcases h with h | h | h | h <;>
      simp [refreshEligible, h]
  refine ⟨?_, ?_, ?_⟩
  · simp [interceptError, hne]
  · simp [refreshEligible, hq]
  · simp [interceptError, heI, hI]

/-- C8: after the refresh settles, whatever the outcome, the coordinator
is idle again: `isRefreshing` is false and `failedQueue` is empty, and a
later eligible 401 starts a fresh refresh cycle. -/
theorem idle_state_restoration (stP : ApiState) (lid : Nat) (lreq : Request)
    (outcome : RefreshOutcome) (id2 : Nat) (e2 : RespError)
    (hp : stP.pending = some (lid, lreq)) (h2 : refreshEligible e2 = true) :
    (settleRefresh stP outcome).1.isRefreshing = false ∧
    (settleRefresh stP outcome).1.failedQueue = [] ∧
    (interceptError (settleRefresh stP outcome).1 id2 e2).2.1 =
      Decision.startedRefresh := by
  have hstate : (settleRefresh stP outcome).1.isRefreshing = false ∧
      (settleRefresh stP outcome).1.failedQueue = [] := by
    cases outcome with
    | success tok => simp [settleRefresh, hp, setAuthToken_failedQueue, processQueue]
    | failure err => simp [settleRefresh, hp, processQueue]
  refine ⟨hstate.1, hstate.2, ?_⟩
  simp [interceptError, h2, hstate.1]

/-- C9 (amended): a successful refresh calls `setAuthToken` with the new
access token; for a non-empty token this sets the default `Authorization`
header to `Bearer <token>`, so a subsequently issued request without its
own header carries it; `setAuthToken` with `null` — and, the empty string
being falsy, with `""` — deletes the default header entirely. -/
theorem default_header_update (st stP : ApiState) (t tok : String)
    (lid : Nat) (lreq : Request) (hp : stP.pending = some (lid, lreq))
    (ht : t.isEmpty = false) (htok : tok.isEmpty = false) :
    (setAuthToken st (some t)).defaultsAuth = some ("Bearer " ++ t) ∧
    (setAuthToken st none).defaultsAuth = none ∧
    (setAuthToken st (some "")).defaultsAuth = none ∧
    (settleRefresh stP (RefreshOutcome.success tok)).1.defaultsAuth =
      some ("Bearer " ++ tok) ∧
    effectiveAuth (settleRefresh stP (RefreshOutcome.success tok)).1 none =
      some ("Bearer " ++ tok) := by
  refine ⟨by simp [setAuthToken, ht], rfl, rfl, ?_, ?_⟩ <;>
    simp [settleRefresh, hp, processQueue, effectiveAuth,
      setAuthToken_defaultsAuth_ite, htok]

/-- C7 counterexample: the claim "a request is never refresh-retried
twice" fails. In cycle one the queued `/sessions` request is replayed
after the refresh with its `_retry` marker still unset; when that replay
401s again, a second refresh is issued and the very same request is
refresh-retried a second time. -/
theorem refresh_retried_twice_counterexample :
    (1, reqSessionsRetry) ∈ retriesOf cycleOne.2 ∧
    reqSessionsRetry.retry = false ∧
    countRefreshPosts cycleTwo.2 = 1 ∧
    (0, { reqSessionsRetry with retry := true, auth := some "Bearer tok2" }) ∈
      retriesOf cycleTwo.2 := by
  decide

/-- Witness for C1 at a concrete two-request batch and busy state. -/
theorem single_flight_refresh_witness :
    (idleState.isRefreshing = false ∧ idleState.failedQueue = [] ∧
     reqEligible reqUsers = true ∧ [reqSessions].all reqEligible = true ∧
     busyState.isRefreshing = true ∧ refreshEligible (err401 reqUsers) = true) ∧
    (countRefreshPosts
        (runBatch idleState (reqUsers :: [reqSessions])
          (RefreshOutcome.success "tok")).2 = 1 ∧
     interceptError busyState 7 (err401 reqUsers) =
       ({ busyState with
            failedQueue := busyState.failedQueue ++ [(7, reqUsers)] },
        Decision.enqueued, [])) :=
  ⟨⟨by decide, by decide, by decide, by decide, by decide, by decide⟩,
   single_flight_refresh idleState busyState reqUsers [reqSessions]
     (RefreshOutcome.success "tok") 7 (err401 reqUsers)
     (by decide) (by decide) (by decide) (by decide) (by decide) (by decide)⟩

/-- Witness for C2 at a concrete two-request batch. -/
theorem all_or_nothing_outcome_witness :
    (idleState.isRefreshing = false ∧ idleState.failedQueue = [] ∧
     reqEligible reqUsers = true ∧ [reqSessions].all reqEligible = true) ∧
    (retriesOf (runBatch idleState (reqUsers :: [reqSessions])
        (RefreshOutcome.success "tok")).2 =
      (0, { reqUsers with retry := true, auth := some ("Bearer " ++ "tok") }) ::
        (labelReqs 1 [reqSessions]).map
          (fun p => (p.1, { p.2 with auth := some ("Bearer " ++ "tok") })) ∧
     (retriesOf (runBatch idleState (reqUsers :: [reqSessions])
        (RefreshOutcome.success "tok")).2).map Prod.fst =
       List.range (reqUsers :: [reqSessions]).length ∧
     rejectionsOf (runBatch idleState (reqUsers :: [reqSessions])
        (RefreshOutcome.failure "boom")).2 =
       ((labelReqs 1 [reqSessions]).map fun p => (p.1, "boom")) ++ [(0, "boom")]) :=
  ⟨⟨by decide, by decide, by decide, by decide⟩,
   all_or_nothing_outcome idleState reqUsers [reqSessions] "tok" "boom"
     (by decide) (by decide) (by decide) (by decide)⟩

/-- Witness for C3 at a concrete two-request batch. -/
theorem release_order_witness :
    (idleState.isRefreshing = false ∧ idleState.failedQueue = [] ∧
     reqEligible reqUsers = true ∧ [reqSessions].all reqEligible = true) ∧
    (resolvesOf (runBatch idleState (reqUsers :: [reqSessions])
        (RefreshOutcome.success "tok")).2 =
      (labelReqs 1 [reqSessions]).map (fun p => (p.1, "tok")) ∧
     (retriesOf (runBatch idleState (reqUsers :: [reqSessions])
        (RefreshOutcome.success "tok")).2).map Prod.fst =
       List.range (reqUsers :: [reqSessions]).length ∧
     rejectsOf (runBatch idleState (reqUsers :: [reqSessions])
        (RefreshOutcome.failure "boom")).2 =
       (labelReqs 1 [reqSessions]).map (fun p => (p.1, "boom")) ∧
     (labelReqs 1 [reqSessions]).map Prod.fst =
       List.range' 1 [reqSessions].length) :=
  ⟨⟨by decide, by decide, by decide, by decide⟩,
   release_order idleState reqUsers [reqSessions] "tok" "boom"
     (by decide) (by decide) (by decide) (by decide)⟩

/-- Witness for C4 at the concrete busy state. -/
theorem refresh_failure_triggers_logout_witness :
    busyState.pending = some (0, { reqUsers with retry := true }) ∧
    (Op.dispatchLogout ∈
       (settleRefresh busyState (RefreshOutcome.failure "boom")).2 ∧
     (handleLogoutEvent authSample idleState).1 =
       { user := none, accessToken := none } ∧
     (handleLogoutEvent authSample idleState).2.1.defaultsAuth = none) :=
  ⟨by decide,
   refresh_failure_triggers_logout busyState 0 { reqUsers with retry := true }
     "boom" authSample idleState (by decide)⟩

/-- Witness for C5 at concrete idle, busy and pending states. -/
theorem coordinator_step_witness :
    (idleState.isRefreshing = false ∧ refreshEligible (err401 reqUsers) = true ∧
     busyState.isRefreshing = true ∧ refreshEligible (err401 reqSessions) = true ∧
     busyState.pending = some (0, { reqUsers with retry := true })) ∧
    (interceptError idleState 0 (err401 reqUsers) =
      ({ idleState with
           isRefreshing := true,
           pending := some (0, { (err401 reqUsers).config with retry := true }) },
       Decision.startedRefresh, [Op.refreshPost]) ∧
     resolvesOf (settleRefresh busyState (RefreshOutcome.success "tok")).2 =
       busyState.failedQueue.map (fun p => (p.1, "tok")) ∧
     (settleRefresh busyState (RefreshOutcome.success "tok")).1.isRefreshing =
       false ∧
     rejectsOf (settleRefresh busyState (RefreshOutcome.failure "boom")).2 =
       busyState.failedQueue.map (fun p => (p.1, "boom")) ∧
     (settleRefresh busyState (RefreshOutcome.failure "boom")).1.isRefreshing =
       false ∧
     interceptError busyState 5 (err401 reqSessions) =
       ({ busyState with
            failedQueue := busyState.failedQueue ++
              [(5, (err401 reqSessions).config)] },
        Decision.enqueued, [])) :=
  ⟨⟨by decide, by decide, by decide, by decide, by decide⟩,
   coordinator_step idleState busyState busyState 0 5
     (err401 reqUsers) (err401 reqSessions) "tok" "boom" 0
     { reqUsers with retry := true }
     (by decide) (by decide) (by decide) (by decide) (by decide)⟩

/-- Witness for C6 at the concrete status 500. -/
theorem login_error_status_messages_witness :
    ((some 500 : Option Nat) ≠ some 429 ∧ (some 500 : Option Nat) ≠ some 401 ∧
     (some 500 : Option Nat) ≠ some 403) ∧
    (loginErrorMessage (SubmitError.axiosError (some 429)) =
       "Too many login attempts." ∧
     loginErrorMessage (SubmitError.axiosError (some 401)) =
       "Incorrect username or password." ∧
     loginErrorMessage (SubmitError.axiosError (some 403)) =
       "Account is not active. Please verify your email." ∧
     loginErrorMessage (SubmitError.axiosError (some 500)) = "Login failed." ∧
     loginErrorMessage SubmitError.other = "Login failed.") :=
  ⟨⟨by decide, by decide, by decide⟩,
   login_error_status_messages (some 500) (by decide) (by decide) (by decide)⟩

/-- Witness for C7 at a concrete 500-status error and a marked request. -/
theorem refresh_path_exclusions_witness :
    (({ status := some 500, config := reqUsers } : RespError).status ≠
       some 401 ∧
     ({ reqUsers with retry := true } : Request).retry = true ∧
     idleState.isRefreshing = false ∧ refreshEligible (err401 reqSessions) = true) ∧
    (interceptError busyState 3 { status := some 500, config := reqUsers } =
      (busyState, Decision.passThrough,
       [Op.rejectOriginal 3 { status := some 500, config := reqUsers }]) ∧
     refreshEligible
       { status := some 401, config := { reqUsers with retry := true } } =
       false ∧
     (interceptError idleState 4 (err401 reqSessions)).1.pending =
       some (4, { (err401 reqSessions).config with retry := true })) :=
  ⟨⟨by decide, by decide, by decide, by decide⟩,
   refresh_path_exclusions busyState idleState 3 4
     { status := some 500, config := reqUsers } (err401 reqSessions)
     { reqUsers with retry := true } (some 401)
     (Or.inl (by decide)) (by decide) (by decide) (by decide)⟩

/-- Witness for C8 at the concrete busy state, instantiated at the
failure outcome. -/
theorem idle_state_restoration_witness :
    (busyState.pending = some (0, { reqUsers with retry := true }) ∧
     refreshEligible (err401 reqUsers) = true) ∧
    ((settleRefresh busyState (RefreshOutcome.failure "boom")).1.isRefreshing =
       false ∧
     (settleRefresh busyState (RefreshOutcome.failure "boom")).1.failedQueue =
       [] ∧
     (interceptError (settleRefresh busyState (RefreshOutcome.failure "boom")).1
        9 (err401 reqUsers)).2.1 = Decision.startedRefresh) :=
  ⟨⟨by decide, by decide⟩,
   idle_state_restoration busyState 0 { reqUsers with retry := true }
     (RefreshOutcome.failure "boom") 9 (err401 reqUsers)
     (by decide) (by decide)⟩

/-- C9 counterexample: `if (token)` is falsy for the empty string, so a
token of `""` deletes the default `Authorization` header rather than
setting it to `Bearer <token>`, and a refresh that returns the empty
access token leaves no default header installed. -/
theorem default_header_update_counterexample :
    (setAuthToken idleState (some "")).defaultsAuth = none ∧
    (setAuthToken idleState (some "")).defaultsAuth ≠
      some ("Bearer " ++ "") ∧
    (settleRefresh busyState (RefreshOutcome.success "")).1.defaultsAuth =
      none := by
  decide

/-- Witness for C9 at the concrete busy state and non-empty tokens. -/
theorem default_header_update_witness :
    (busyState.pending = some (0, { reqUsers with retry := true }) ∧
     ("t" : String).isEmpty = false ∧ ("tok" : String).isEmpty = false) ∧
    ((setAuthToken idleState (some "t")).defaultsAuth =
       some ("Bearer " ++ "t") ∧
     (setAuthToken idleState none).defaultsAuth = none ∧
     (setAuthToken idleState (some "")).defaultsAuth = none ∧
     (settleRefresh busyState (RefreshOutcome.success "tok")).1.defaultsAuth =
       some ("Bearer " ++ "tok") ∧
     effectiveAuth (settleRefresh busyState (RefreshOutcome.success "tok")).1
       none = some ("Bearer " ++ "tok")) :=
  ⟨⟨by decide, by decide, by decide⟩,
   default_header_update idleState busyState "t" "tok" 0
     { reqUsers with retry := true } (by decide) (by decide) (by decide)⟩

end ProjectOne
